import Mathlib

/-!
Verification of the calendar-expansion-and-aggregation core of
`load_data.py` (`compute_monthly_occupancy_revpar`, lines 132-187).

Shallow embedding conventions:
* A calendar date (midnight-normalized pandas `Timestamp`) is an `Int`
  day number in the proleptic Gregorian calendar, with day 0 = 0000-03-01.
  `pd.Timedelta(days = 1)` arithmetic is integer arithmetic on day numbers;
  `.normalize()` is the identity on such dates.
* pandas float arithmetic on revenue/commission is modelled with `ℚ`
  (the spec's "decimal ... wide enough to avoid cumulative rounding drift").
* A `DataFrame` is a list of records, in row order.
* `pd.date_range(s, e, freq = d)` is `dateRange s e` (empty when `e < s`).
* `groupby` with the default `sort = True` enumerates the distinct keys in
  ascending order; each group carries every row with that key.
* `calendar.merge(daily_agg, on = date, how = left)` (line 167) followed by
  the three `fillna(0)` lines keeps calendar order and, since `daily_agg`
  has one row per distinct date, attaches to each calendar date the summed
  revenue/commission/flag of that date, or zeros when the date is absent.
  Its pandas dtype check is modelled in `compute_monthly_occupancy_revpar`:
  when both frames are empty the `date` keys have dtypes `datetime64[ns]`
  (calendar built from `pd.date_range`) versus `object` (`daily` built from
  an empty list of tuples), and the merge raises `ValueError`; when exactly
  one side is empty pandas skips the dtype check and the merge succeeds.
-/

namespace Reservacie

/-- Day number of a proleptic-Gregorian (year, month, day), epoch 0000-03-01. -/
def daysFromCivil (y m d : Nat) : Nat :=
  let y2 := if m ≤ 2 then y - 1 else y
  let era := y2 / 400
  let yoe := y2 % 400
  let mp := if 2 < m then m - 3 else m + 9
  let doy := (153 * mp + 2) / 5 + d - 1
  let doe := yoe * 365 + yoe / 4 - yoe / 100 + doy
  era * 146097 + doe

/-- Proleptic-Gregorian (year, month, day) of a day number. -/
def civilOfDays (z : Nat) : Nat × Nat × Nat :=
  let era := z / 146097
  let doe := z % 146097
  let yoe := (doe - doe / 1460 + doe / 36524 - doe / 146096) / 365
  let y := yoe + era * 400
  let doy := doe - (365 * yoe + yoe / 4 - yoe / 100)
  let mp := (5 * doy + 2) / 153
  let d := doy - (153 * mp + 2) / 5 + 1
  let m := if mp < 10 then mp + 3 else mp - 9
  (if m ≤ 2 then y + 1 else y, m, d)

/-- Linear month key `year * 12 + (month - 1)`. -/
def monthIdx (y m : Nat) : Nat := y * 12 + (m - 1)

/-- Month key of a date: models the `datetime64[M]` truncation of line 144
(`calendar[month] = calendar[date].values.astype(...)`); truncated months
compare (for `groupby` sorting and `sort_values`) exactly as these keys. -/
def monthOf (t : Int) : Nat :=
  let c := civilOfDays t.toNat
  monthIdx c.1 c.2.1

/-- Model of `pd.date_range(s, e, freq = d)`: the dates from `s` to `e`
inclusive, ascending; empty when `e < s`. -/
def dateRange (s e : Int) : List Int :=
  (List.range (e + 1 - s).toNat).map fun i : Nat => s + (i : Int)

/-- One row of the bookings frame `df_b` (columns of the SQL query in
`load_bookings`, lines 106-119): arrival date, departure date, night count,
price, commission. -/
structure Booking where
  prichod : Int
  odchod : Int
  pocet_noci : Int
  cena : ℚ
  provizia : ℚ
deriving DecidableEq

/-- Minimum of a column (`Series.min`), meaningful on non-empty lists. -/
def listMinI : List Int → Int
  | [] => 0
  | x :: xs => xs.foldl min x

/-- Maximum of a column (`Series.max`), meaningful on non-empty lists. -/
def listMaxI : List Int → Int
  | [] => 0
  | x :: xs => xs.foldl max x

/-- Line 137: `start_date = df_b[prichod].min().normalize()`. -/
def start_date (df_b : List Booking) : Int :=
  listMinI (df_b.map (·.prichod))

/-- Lines 140-141: `end_limit = FILTER_END_EXCL - 1 day` and
`end_date = min((df_b[odchod].max() - 1 day).normalize(), end_limit)`. -/
def end_date (df_b : List Booking) (filter_end_excl : Int) : Int :=
  min (listMaxI (df_b.map (·.odchod)) - 1) (filter_end_excl - 1)

/-- Line 148: `nights = pd.date_range(r.prichod, r.odchod - 1 day, freq = d)`. -/
def bookingNights (r : Booking) : List Int :=
  dateRange r.prichod (r.odchod - 1)

/-- Line 149: `daily_rev = float(r.cena) / int(r.pocet_noci)`. -/
def daily_rev (r : Booking) : ℚ := r.cena / (r.pocet_noci : ℚ)

/-- Line 150: `daily_comm = float(r.provizia) / int(r.pocet_noci)`. -/
def daily_comm (r : Booking) : ℚ := r.provizia / (r.pocet_noci : ℚ)

/-- Lines 151-155: the inner loop over one booking's nights; a night `d`
with `d > end_date` is skipped (`continue`), otherwise the tuple
`(d, daily_rev, daily_comm)` is appended to `rows`. -/
def bookingRows (e : Int) (r : Booking) : List (Int × ℚ × ℚ) :=
  (bookingNights r).filterMap fun d =>
    if e < d then none else some (d, daily_rev r, daily_comm r)

/-- Lines 146-155: the full `rows` list, bookings in frame order, each
expanded to its clamped nights. -/
def allRows (df_b : List Booking) (filter_end_excl : Int) : List (Int × ℚ × ℚ) :=
  df_b.flatMap (bookingRows (end_date df_b filter_end_excl))

/-- Line 143: `calendar = pd.DataFrame(date = pd.date_range(start, end))`. -/
def calendar (df_b : List Booking) (filter_end_excl : Int) : List Int :=
  dateRange (start_date df_b) (end_date df_b filter_end_excl)

/-- One row of `daily_full` (lines 157-170): a calendar date with the
summed per-night revenue and commission of every `rows` tuple on that date
and the occupancy flag; zeros / `False` when the date has no tuple
(the `how = left` merge produces `NaN` there and lines 168-170 fill 0). -/
structure DailyRecord where
  date : Int
  revenue_gross : ℚ
  commission : ℚ
  occupied_flag : Bool
deriving DecidableEq

/-- Lines 159-170 at one calendar date: `daily_agg` groups `rows` by date
summing `daily_rev` and `daily_comm` (`occ_cnt = size`, so
`occupied_flag = 1` exactly on dates with at least one tuple), and the left
merge attaches that group's sums — or zeros for an absent date — to the
calendar row. -/
def dailyRecordAt (rows : List (Int × ℚ × ℚ)) (d : Int) : DailyRecord :=
  let hits := rows.filter fun t => t.1 == d
  { date := d
    revenue_gross := (hits.map fun t => t.2.1).sum
    commission := (hits.map fun t => t.2.2).sum
    occupied_flag := !hits.isEmpty }

/-- Lines 157-170: the `daily_full` frame, one record per calendar date,
in calendar (ascending date) order. -/
def daily_full (df_b : List Booking) (filter_end_excl : Int) : List DailyRecord :=
  (calendar df_b filter_end_excl).map (dailyRecordAt (allRows df_b filter_end_excl))

/-- The distinct month keys of the calendar in ascending order: the group
keys of `daily_full.groupby(month)` (line 172, default `sort = True`). -/
def monthKeys (df_b : List Booking) (filter_end_excl : Int) : List Nat :=
  List.insertionSort (· ≤ ·) (((calendar df_b filter_end_excl).map monthOf).dedup)

/-- One row of the `monthly` result frame (lines 172-187). -/
structure MonthlyKPI where
  month : Nat
  available_nights : Nat
  occupied_nights : Nat
  revenue_gross : ℚ
  commission : ℚ
  revenue_net : ℚ
  occupancy_pct : ℚ
  revpar_gross : ℚ
  revpar_net : ℚ
  year : Nat
  month_num : Nat
deriving DecidableEq

/-- The `daily_full` rows of one month group (line 172). -/
def monthGroup (df_b : List Booking) (filter_end_excl : Int) (m : Nat) :
    List DailyRecord :=
  (daily_full df_b filter_end_excl).filter fun rec => monthOf rec.date == m

/-- Lines 172-185 for one month group: `available_nights = count(date)`,
`occupied_nights = sum(occupied_flag)` (the flags are 0/1, so the count of
occupied dates), summed revenue/commission, then the derived columns
`revenue_net`, `occupancy_pct`, `revpar_gross`, `revpar_net`, `year`,
`month_num`. -/
def mkMonthly (m : Nat) (grp : List DailyRecord) : MonthlyKPI :=
  let available : Nat := grp.length
  let occupied : Nat := (grp.filter (·.occupied_flag)).length
  let gross : ℚ := (grp.map (·.revenue_gross)).sum
  let comm : ℚ := (grp.map (·.commission)).sum
  { month := m
    available_nights := available
    occupied_nights := occupied
    revenue_gross := gross
    commission := comm
    revenue_net := gross - comm
    occupancy_pct := 100 * (occupied : ℚ) / (available : ℚ)
    revpar_gross := gross / (available : ℚ)
    revpar_net := (gross - comm) / (available : ℚ)
    year := m / 12
    month_num := m % 12 + 1 }

/-- Lines 172-187: the `monthly` frame, one row per distinct month key in
ascending month order (`groupby` sorts its keys and the final
`sort_values(month)` keeps that order). -/
def monthlyTable (df_b : List Booking) (filter_end_excl : Int) :
    List MonthlyKPI :=
  (monthKeys df_b filter_end_excl).map fun m =>
    mkMonthly m (monthGroup df_b filter_end_excl m)

/-- The ways `compute_monthly_occupancy_revpar` can fail:
`emptyInput` is the `SystemExit` of lines 133-134 on an empty `df_b`;
`mergeDtypeMismatch` is the pandas `ValueError` of the line-167 merge when
both `calendar` and `daily_agg` are empty with incompatible `date` dtypes
(`datetime64[ns]` versus `object`) — see the module docstring. -/
inductive AggError where
  | emptyInput
  | mergeDtypeMismatch
deriving DecidableEq

/-- Lines 132-187: the whole `compute_monthly_occupancy_revpar` pipeline. -/
def compute_monthly_occupancy_revpar (df_b : List Booking)
    (filter_end_excl : Int) : Except AggError (List MonthlyKPI) :=
  if df_b.isEmpty then .error .emptyInput
  else if (calendar df_b filter_end_excl).isEmpty
      && (allRows df_b filter_end_excl).isEmpty then
    .error .mergeDtypeMismatch
  else .ok (monthlyTable df_b filter_end_excl)

/-- Count of a booking's nights that survive the `d > end_date` clamp. -/
def clampedNights (e : Int) (r : Booking) : Nat :=
  ((bookingNights r).filter fun d => d ≤ e).length

/-- A booking occupies date `d` exactly when `d` lies in the half-open
range from arrival (inclusive) to departure (exclusive). -/
def occupies (r : Booking) (d : Int) : Prop :=
  r.prichod ≤ d ∧ d < r.odchod

/-! ### Basic lemmas about the date and column primitives -/

theorem mem_dateRange {s e d : Int} : d ∈ dateRange s e ↔ s ≤ d ∧ d ≤ e := by
  unfold dateRange
  rw [List.mem_map]
  constructor
  · rintro ⟨i, hi, rfl⟩
    rw [List.mem_range] at hi
    omega
  · rintro ⟨h1, h2⟩
    refine ⟨(d - s).toNat, ?_, ?_⟩
    · rw [List.mem_range]; omega
    · omega

theorem nodup_dateRange (s e : Int) : (dateRange s e).Nodup := by
  unfold dateRange
  refine List.Nodup.map ?_ (List.nodup_range _)
  intro a b h
  dsimp only at h
  omega

theorem dateRange_eq_nil {s e : Int} (h : e < s) : dateRange s e = [] := by
  unfold dateRange
  rw [List.map_eq_nil_iff, List.range_eq_nil]
  omega

theorem dateRange_ne_nil {s e : Int} (h : s ≤ e) : dateRange s e ≠ [] := by
  intro hnil
  have hs : s ∈ dateRange s e := mem_dateRange.mpr ⟨le_refl s, h⟩
  rw [hnil] at hs
  exact List.not_mem_nil s hs

theorem foldl_min_le_init (xs : List Int) (a : Int) : xs.foldl min a ≤ a := by
  induction xs generalizing a with
  | nil => simp
  | cons x xs ih => exact le_trans (ih (min a x)) (min_le_left a x)

theorem foldl_min_le_mem (xs : List Int) (a : Int) :
    ∀ x ∈ xs, xs.foldl min a ≤ x := by
  induction xs generalizing a with
  | nil => simp
  | cons y ys ih =>
    intro x hx
    rcases List.mem_cons.mp hx with rfl | hx
    · exact le_trans (foldl_min_le_init ys (min a x)) (min_le_right a x)
    · exact ih (min a y) x hx

theorem foldl_min_mem (xs : List Int) (a : Int) : xs.foldl min a ∈ a :: xs := by
  induction xs generalizing a with
  | nil => simp
  | cons y ys ih =>
    rcases List.mem_cons.mp (ih (min a y)) with h | h
    · rcases min_choice a y with hc | hc
      · exact List.mem_cons.mpr (Or.inl (h.trans hc))
      · exact List.mem_cons.mpr (Or.inr (List.mem_cons.mpr (Or.inl (h.trans hc))))
    · exact List.mem_cons.mpr (Or.inr (List.mem_cons.mpr (Or.inr h)))

theorem listMinI_le {l : List Int} {x : Int} (hx : x ∈ l) : listMinI l ≤ x := by
  cases l with
  | nil => exact absurd hx (List.not_mem_nil x)
  | cons y ys =>
    rcases List.mem_cons.mp hx with rfl | hx
    · exact foldl_min_le_init ys x
    · exact foldl_min_le_mem ys y x hx

theorem listMinI_mem {l : List Int} (h : l ≠ []) : listMinI l ∈ l := by
  cases l with
  | nil => exact absurd rfl h
  | cons y ys => exact foldl_min_mem ys y

theorem foldl_max_init_le (xs : List Int) (a : Int) : a ≤ xs.foldl max a := by
  induction xs generalizing a with
  | nil => simp
  | cons x xs ih => exact le_trans (le_max_left a x) (ih (max a x))

theorem foldl_max_mem_le (xs : List Int) (a : Int) :
    ∀ x ∈ xs, x ≤ xs.foldl max a := by
  induction xs generalizing a with
  | nil => simp
  | cons y ys ih =>
    intro x hx
    rcases List.mem_cons.mp hx with rfl | hx
    · exact le_trans (le_max_right a x) (foldl_max_init_le ys (max a x))
    · exact ih (max a y) x hx

theorem foldl_max_mem (xs : List Int) (a : Int) : xs.foldl max a ∈ a :: xs := by
  induction xs generalizing a with
  | nil => simp
  | cons y ys ih =>
    rcases List.mem_cons.mp (ih (max a y)) with h | h
    · rcases max_choice a y with hc | hc
      · exact List.mem_cons.mpr (Or.inl (h.trans hc))
      · exact List.mem_cons.mpr (Or.inr (List.mem_cons.mpr (Or.inl (h.trans hc))))
    · exact List.mem_cons.mpr (Or.inr (List.mem_cons.mpr (Or.inr h)))

theorem le_listMaxI {l : List Int} {x : Int} (hx : x ∈ l) : x ≤ listMaxI l := by
  cases l with
  | nil => exact absurd hx (List.not_mem_nil x)
  | cons y ys =>
    rcases List.mem_cons.mp hx with rfl | hx
    · exact foldl_max_init_le ys x
    · exact foldl_max_mem_le ys y x hx

theorem listMaxI_mem {l : List Int} (h : l ≠ []) : listMaxI l ∈ l := by
  cases l with
  | nil => exact absurd rfl h
  | cons y ys => exact foldl_max_mem ys y

/-! ### Structure of the night-expansion step -/

theorem mem_bookingNights {r : Booking} {d : Int} :
    d ∈ bookingNights r ↔ occupies r d := by
  unfold bookingNights occupies
  rw [mem_dateRange]
  omega

theorem bookingRows_eq (e : Int) (r : Booking) :
    bookingRows e r =
      ((bookingNights r).filter fun d => d ≤ e).map
        fun d => (d, daily_rev r, daily_comm r) := by
  unfold bookingRows
  induction bookingNights r with
  | nil => rfl
  | cons d l ih =>
    by_cases h : e < d
    · rw [List.filterMap_cons, List.filter_cons]
      simp [h, not_le.mpr h, ih]
    · rw [List.filterMap_cons, List.filter_cons]
      simp [h, not_lt.mp h, ih]

theorem mem_allRows {df_b : List Booking} {c : Int} {t : Int × ℚ × ℚ}
    (ht : t ∈ allRows df_b c) :
    ∃ r ∈ df_b, occupies r t.1 ∧ t.1 ≤ end_date df_b c ∧
      t.2.1 = daily_rev r ∧ t.2.2 = daily_comm r := by
  unfold allRows at ht
  rw [List.mem_flatMap] at ht
  obtain ⟨r, hr, hrt⟩ := ht
  rw [bookingRows_eq, List.mem_map] at hrt
  obtain ⟨d, hd, rfl⟩ := hrt
  rw [List.mem_filter] at hd
  refine ⟨r, hr, mem_bookingNights.mp hd.1, by simpa using hd.2, rfl, rfl⟩

theorem start_date_le_prichod {df_b : List Booking} {r : Booking}
    (hr : r ∈ df_b) : start_date df_b ≤ r.prichod :=
  listMinI_le (List.mem_map_of_mem (·.prichod) hr)

theorem allRows_date_mem_calendar {df_b : List Booking} {c : Int}
    {t : Int × ℚ × ℚ} (ht : t ∈ allRows df_b c) :
    t.1 ∈ calendar df_b c := by
  obtain ⟨r, hr, hocc, hle, -, -⟩ := mem_allRows ht
  exact mem_dateRange.mpr ⟨le_trans (start_date_le_prichod hr) hocc.1, hle⟩

/-! ### Sum-exchange machinery -/

theorem sum_map_ite_zero_of_not_mem {a : Int} {l : List Int} (h : a ∉ l)
    (x : ℚ) : (l.map fun d => if a = d then x else 0).sum = 0 := by
  induction l with
  | nil => simp
  | cons b l ih =>
    rw [List.mem_cons, not_or] at h
    simp [h.1, ih h.2]

theorem sum_map_ite_of_nodup {a : Int} {l : List Int} (ha : a ∈ l)
    (hnd : l.Nodup) (x : ℚ) :
    (l.map fun d => if a = d then x else 0).sum = x := by
  induction l with
  | nil => exact absurd ha (List.not_mem_nil a)
  | cons b l ih =>
    rcases List.mem_cons.mp ha with rfl | ha2
    · have hnm : a ∉ l := (List.nodup_cons.mp hnd).1
      simp [sum_map_ite_zero_of_not_mem hnm]
    · have hne : a ≠ b := fun h => (List.nodup_cons.mp hnd).1 (h ▸ ha2)
      simp [hne, ih ha2 (List.nodup_cons.mp hnd).2]

theorem sum_groups_eq_sum_rows (cal : List Int) (hnd : cal.Nodup)
    (rows : List (Int × ℚ × ℚ)) (f : Int × ℚ × ℚ → ℚ)
    (hmem : ∀ t ∈ rows, t.1 ∈ cal) :
    (cal.map fun d => ((rows.filter fun t => t.1 == d).map f).sum).sum
      = (rows.map f).sum := by
  induction rows with
  | nil => simp
  | cons t rows ih =>
    have hinner : ∀ d : Int,
        (((t :: rows).filter fun u => u.1 == d).map f).sum
          = (if t.1 = d then f t else 0)
            + ((rows.filter fun u => u.1 == d).map f).sum := by
      intro d
      by_cases h : t.1 = d
      · rw [List.filter_cons_of_pos (by simp [h]), List.map_cons,
          List.sum_cons, if_pos h]
      · rw [List.filter_cons_of_neg (by simp [h]), if_neg h, zero_add]
    calc (cal.map fun d => (((t :: rows).filter fun u => u.1 == d).map f).sum).sum
        = (cal.map fun d => (if t.1 = d then f t else 0)
            + ((rows.filter fun u => u.1 == d).map f).sum).sum := by
          exact congrArg List.sum (List.map_congr_left fun d _ => hinner d)
      _ = (cal.map fun d => if t.1 = d then f t else 0).sum
            + (cal.map fun d => ((rows.filter fun u => u.1 == d).map f).sum).sum :=
          List.sum_map_add
      _ = f t + (rows.map f).sum := by
          rw [sum_map_ite_of_nodup (hmem t (List.mem_cons_self t rows)) hnd,
            ih fun u hu => hmem u (List.mem_cons_of_mem t hu)]
      _ = ((t :: rows).map f).sum := by rw [List.map_cons, List.sum_cons]

theorem daily_full_sum (df_b : List Booking) (c : Int)
    (f : DailyRecord → ℚ) (g : Int × ℚ × ℚ → ℚ)
    (hfg : ∀ rows d, f (dailyRecordAt rows d) = ((rows.filter fun t => t.1 == d).map g).sum) :
    ((daily_full df_b c).map f).sum = ((allRows df_b c).map g).sum := by
  unfold daily_full
  rw [List.map_map]
  calc ((calendar df_b c).map (f ∘ dailyRecordAt (allRows df_b c))).sum
      = ((calendar df_b c).map fun d =>
          (((allRows df_b c).filter fun t => t.1 == d).map g).sum).sum := by
        exact congrArg List.sum (List.map_congr_left fun d _ => hfg (allRows df_b c) d)
    _ = ((allRows df_b c).map g).sum :=
        sum_groups_eq_sum_rows _ (nodup_dateRange _ _) _ g
          fun t ht => allRows_date_mem_calendar ht

theorem bookingRows_sum_fst (e : Int) (r : Booking) :
    ((bookingRows e r).map fun t => t.2.1).sum
      = daily_rev r * (clampedNights e r : ℚ) := by
  rw [bookingRows_eq, List.map_map]
  unfold clampedNights
  simp only [Function.comp_def]
  rw [List.map_const', List.sum_replicate, nsmul_eq_mul]
  ring

theorem bookingRows_sum_snd (e : Int) (r : Booking) :
    ((bookingRows e r).map fun t => t.2.2).sum
      = daily_comm r * (clampedNights e r : ℚ) := by
  rw [bookingRows_eq, List.map_map]
  unfold clampedNights
  simp only [Function.comp_def]
  rw [List.map_const', List.sum_replicate, nsmul_eq_mul]
  ring

theorem allRows_sum (df_b : List Booking) (c : Int) (g : Int × ℚ × ℚ → ℚ) :
    ((allRows df_b c).map g).sum
      = (df_b.map fun r =>
          ((bookingRows (end_date df_b c) r).map g).sum).sum := by
  unfold allRows
  rw [List.map_flatMap, List.flatMap_def, List.sum_flatten, List.map_map]
  rfl

/-! ### Month keys and month groups -/

theorem mem_monthKeys {df_b : List Booking} {c : Int} {m : Nat} :
    m ∈ monthKeys df_b c ↔ ∃ d ∈ calendar df_b c, monthOf d = m := by
  unfold monthKeys
  rw [(List.perm_insertionSort _ _).mem_iff, List.mem_dedup, List.mem_map]

theorem monthKeys_nodup (df_b : List Booking) (c : Int) :
    (monthKeys df_b c).Nodup :=
  ((List.perm_insertionSort _ _).nodup_iff).mpr (List.nodup_dedup _)

theorem monthKeys_pairwise_lt (df_b : List Booking) (c : Int) :
    (monthKeys df_b c).Pairwise (· < ·) := by
  have hs : (monthKeys df_b c).Pairwise (· ≤ ·) :=
    List.sorted_insertionSort (· ≤ ·) (((calendar df_b c).map monthOf).dedup)
  have hn : (monthKeys df_b c).Pairwise (· ≠ ·) := monthKeys_nodup df_b c
  exact (hs.and hn).imp fun h => lt_of_le_of_ne h.1 h.2

theorem dailyRecordAt_date (rows : List (Int × ℚ × ℚ)) (d : Int) :
    (dailyRecordAt rows d).date = d := rfl

theorem monthGroup_ne_nil {df_b : List Booking} {c : Int} {m : Nat}
    (hm : m ∈ monthKeys df_b c) : monthGroup df_b c m ≠ [] := by
  obtain ⟨d, hd, hdm⟩ := mem_monthKeys.mp hm
  intro hnil
  have hmem : dailyRecordAt (allRows df_b c) d ∈ monthGroup df_b c m := by
    unfold monthGroup daily_full
    rw [List.mem_filter]
    refine ⟨List.mem_map_of_mem _ hd, ?_⟩
    rw [dailyRecordAt_date]
    exact beq_iff_eq.mpr hdm
  rw [hnil] at hmem
  exact List.not_mem_nil _ hmem

theorem mkMonthly_available (m : Nat) (grp : List DailyRecord) :
    (mkMonthly m grp).available_nights = grp.length := rfl

theorem available_nights_pos {df_b : List Booking} {c : Int} {m : Nat}
    (hm : m ∈ monthKeys df_b c) :
    0 < (mkMonthly m (monthGroup df_b c m)).available_nights := by
  rw [mkMonthly_available]
  exact List.length_pos.mpr (monthGroup_ne_nil hm)

theorem calendar_ne_nil {df_b : List Booking} {c : Int}
    (h : start_date df_b ≤ end_date df_b c) : calendar df_b c ≠ [] :=
  dateRange_ne_nil h

theorem compute_eq_ok {df_b : List Booking} {c : Int} (hne : df_b ≠ [])
    (hcal : calendar df_b c ≠ []) :
    compute_monthly_occupancy_revpar df_b c = .ok (monthlyTable df_b c) := by
  unfold compute_monthly_occupancy_revpar
  rw [if_neg (by simpa using hne), if_neg]
  simp [hcal]

theorem tbl_eq_of_ok {df_b : List Booking} {c : Int} {tbl : List MonthlyKPI}
    (hne : df_b ≠ [])
    (htbl : compute_monthly_occupancy_revpar df_b c = .ok tbl) :
    tbl = monthlyTable df_b c := by
  unfold compute_monthly_occupancy_revpar at htbl
  rw [if_neg (by simpa using hne)] at htbl
  by_cases hb : ((calendar df_b c).isEmpty && (allRows df_b c).isEmpty) = true
  · rw [if_pos hb] at htbl
    exact Except.noConfusion htbl
  · rw [if_neg hb] at htbl
    exact (Except.ok.inj htbl).symm

theorem mkMonthly_occupied (m : Nat) (grp : List DailyRecord) :
    (mkMonthly m grp).occupied_nights = (grp.filter (·.occupied_flag)).length :=
  rfl

theorem mkMonthly_month (m : Nat) (grp : List DailyRecord) :
    (mkMonthly m grp).month = m := rfl

theorem pct_bounds {occ avail : Nat} (hocc : occ ≤ avail) (h : 0 < avail) :
    0 ≤ 100 * (occ : ℚ) / (avail : ℚ)
    ∧ 100 * (occ : ℚ) / (avail : ℚ) ≤ 100 := by
  have ha : (0 : ℚ) < (avail : ℚ) := by exact_mod_cast h
  constructor
  · positivity
  · rw [div_le_iff₀ ha]
    exact mul_le_mul_of_nonneg_left (by exact_mod_cast hocc) (by norm_num)

/-! ### Concrete inputs used by witnesses and scenario checks -/

/-- The single-booking scenario of the spec: arrival 2024-03-01, departure
2024-03-04, 3 nights, price 300, commission 30. -/
def bMarch : Booking :=
  ⟨(daysFromCivil 2024 3 1 : Int), (daysFromCivil 2024 3 4 : Int), 3, 300, 30⟩

/-- Cutoff 2024-04-01 for the single-booking scenario. -/
def aprilCutoff : Int := (daysFromCivil 2024 4 1 : Int)

/-- The cutoff-clamping scenario booking: 2024-01-30 to 2024-02-05. -/
def bJanFeb : Booking :=
  ⟨(daysFromCivil 2024 1 30 : Int), (daysFromCivil 2024 2 5 : Int), 6, 600, 60⟩

/-- Cutoff 2024-02-01 for the clamping scenario. -/
def febCutoff : Int := (daysFromCivil 2024 2 1 : Int)

/-- A booking whose nights all lie at or after a cutoff of 50. -/
def bLate : Booking := ⟨100, 103, 3, 300, 0⟩

/-- The March KPI row produced from `bMarch`. -/
def kpiMarch : MonthlyKPI :=
  mkMonthly (monthIdx 2024 3) (monthGroup [bMarch] aprilCutoff (monthIdx 2024 3))

/-! ### Claim theorems -/

/-- C3: for every non-empty booking set, the derived window start is the
minimum arrival date over all bookings (it is an arrival date and is below
every arrival date), and the window end is the minimum of the maximum
departure date minus one day and the exclusive cutoff minus one day. -/
theorem window_derivation (df_b : List Booking) (c : Int) (hne : df_b ≠ []) :
    (start_date df_b ∈ df_b.map (·.prichod)
      ∧ ∀ r ∈ df_b, start_date df_b ≤ r.prichod)
    ∧ ∃ M, (M ∈ df_b.map (·.odchod) ∧ ∀ r ∈ df_b, r.odchod ≤ M)
        ∧ end_date df_b c = min (M - 1) (c - 1) := by
  have hmapP : df_b.map (·.prichod) ≠ [] :=
    fun h => hne (List.map_eq_nil_iff.mp h)
  have hmapO : df_b.map (·.odchod) ≠ [] :=
    fun h => hne (List.map_eq_nil_iff.mp h)
  refine ⟨⟨listMinI_mem hmapP, fun r hr => start_date_le_prichod hr⟩,
    listMaxI (df_b.map (·.odchod)),
    ⟨listMaxI_mem hmapO, fun r hr => le_listMaxI (List.mem_map_of_mem _ hr)⟩,
    ?_⟩
  rfl

/-- Witness for C3 at the single-booking scenario input. -/
theorem window_derivation_witness :
    (start_date [bMarch] ∈ [bMarch].map (·.prichod)
      ∧ ∀ r ∈ [bMarch], start_date [bMarch] ≤ r.prichod)
    ∧ ∃ M, (M ∈ [bMarch].map (·.odchod) ∧ ∀ r ∈ [bMarch], r.odchod ≤ M)
        ∧ end_date [bMarch] aprilCutoff = min (M - 1) (aprilCutoff - 1) :=
  window_derivation [bMarch] aprilCutoff (by decide)

/-- C6: an empty booking frame makes the aggregation fail with the
empty-input error (lines 133-134), and a non-empty frame never produces
that error. -/
theorem empty_input_error (df_b : List Booking) (c : Int) :
    (df_b = [] →
      compute_monthly_occupancy_revpar df_b c = .error .emptyInput)
    ∧ (df_b ≠ [] →
      compute_monthly_occupancy_revpar df_b c ≠ .error .emptyInput) := by
  constructor
  · rintro rfl
    rfl
  · intro hne
    unfold compute_monthly_occupancy_revpar
    rw [if_neg (by simpa using hne)]
    by_cases hb : ((calendar df_b c).isEmpty && (allRows df_b c).isEmpty) = true
    · rw [if_pos hb]
      intro h
      exact AggError.noConfusion (Except.error.inj h)
    · rw [if_neg hb]
      intro h
      exact Except.noConfusion h

/-- Witness for C6: the empty frame errors, the scenario frame does not. -/
theorem empty_input_error_witness :
    compute_monthly_occupancy_revpar [] aprilCutoff = .error .emptyInput
    ∧ compute_monthly_occupancy_revpar [bMarch] aprilCutoff
        ≠ .error .emptyInput :=
  ⟨(empty_input_error [] aprilCutoff).1 rfl,
   (empty_input_error [bMarch] aprilCutoff).2 (by decide)⟩

/-- C9: the aggregation output is a function of the booking frame and the
cutoff alone — equal inputs give equal outputs (the embedding shows the
pipeline reads no state besides its two inputs). -/
theorem aggregation_deterministic (df_b1 df_b2 : List Booking)
    (c1 c2 : Int) (hb : df_b1 = df_b2) (hc : c1 = c2) :
    compute_monthly_occupancy_revpar df_b1 c1
      = compute_monthly_occupancy_revpar df_b2 c2 := by
  rw [hb, hc]

/-- Witness for C9 at the scenario input. -/
theorem aggregation_deterministic_witness :
    compute_monthly_occupancy_revpar [bMarch] aprilCutoff
      = compute_monthly_occupancy_revpar [bMarch] aprilCutoff :=
  aggregation_deterministic [bMarch] [bMarch] aprilCutoff aprilCutoff rfl rfl

/-- C7: the monthly rollup never meets a month with zero available nights:
every month key comes from at least one calendar date, so every group is
non-empty and every division of lines 180-182 has a positive denominator.
The guarded situation of the claim is unreachable, making the claim hold
vacuously over all runs (the code itself contains no explicit guard). -/
theorem available_nights_never_zero (df_b : List Booking) (c : Int)
    (kpi : MonthlyKPI) (hk : kpi ∈ monthlyTable df_b c) :
    0 < kpi.available_nights := by
  unfold monthlyTable at hk
  rw [List.mem_map] at hk
  obtain ⟨m, hm, rfl⟩ := hk
  exact available_nights_pos hm

/-- Membership of the March KPI row in the scenario output, shown through
the month key so that no rational field needs kernel evaluation. -/
theorem kpiMarch_mem : kpiMarch ∈ monthlyTable [bMarch] aprilCutoff := by
  have hm : monthIdx 2024 3 ∈ monthKeys [bMarch] aprilCutoff := by decide
  exact List.mem_map_of_mem _ hm

/-- Witness for C7 at the single-booking scenario input. -/
theorem available_nights_never_zero_witness :
    kpiMarch ∈ monthlyTable [bMarch] aprilCutoff
    ∧ 0 < kpiMarch.available_nights :=
  ⟨kpiMarch_mem,
   available_nights_never_zero [bMarch] aprilCutoff kpiMarch kpiMarch_mem⟩

/-- C10 counterexample: on a non-empty booking set whose derived window end
precedes its start (`bLate` with cutoff 50: end 49 < start 100) the
aggregation does not return an empty KPI sequence — the line-167 merge of
the two empty frames raises on the mismatched `date` dtypes. -/
theorem empty_window_counterexample :
    compute_monthly_occupancy_revpar [bLate] 50
      = .error .mergeDtypeMismatch := rfl

/-- C10 amended: for every non-empty booking set whose derived window end
precedes its start, the aggregation fails with the merge dtype error (the
pandas `ValueError` of line 167), not with `InvalidWindowError` and not
with an empty output. -/
theorem empty_window_error (df_b : List Booking) (c : Int) (hne : df_b ≠ [])
    (hlt : end_date df_b c < start_date df_b) :
    compute_monthly_occupancy_revpar df_b c = .error .mergeDtypeMismatch := by
  have hcal : calendar df_b c = [] := dateRange_eq_nil hlt
  have hrows : allRows df_b c = [] := by
    rcases h : allRows df_b c with _ | ⟨t, ts⟩
    · rfl
    · exfalso
      have ht : t ∈ allRows df_b c := h ▸ List.mem_cons_self t ts
      have hmem := allRows_date_mem_calendar ht
      rw [hcal] at hmem
      exact List.not_mem_nil _ hmem
  unfold compute_monthly_occupancy_revpar
  rw [if_neg (by simpa using hne), if_pos (by rw [hcal, hrows]; rfl)]

/-- A second booking also entirely past the cutoff of 50. -/
def bLater : Booking := ⟨200, 205, 5, 500, 50⟩

/-- Witness for the amended C10 at a two-booking input past the cutoff. -/
theorem empty_window_error_witness :
    compute_monthly_occupancy_revpar [bLate, bLater] 50
      = .error .mergeDtypeMismatch :=
  empty_window_error [bLate, bLater] 50 (by decide) (by decide)

/-- C8: every KPI row of the aggregation output has at most as many
occupied nights as available nights, and its occupancy percentage lies in
the interval from 0 to 100. -/
theorem occupancy_bounds (df_b : List Booking) (c : Int) (hne : df_b ≠ [])
    (tbl : List MonthlyKPI)
    (htbl : compute_monthly_occupancy_revpar df_b c = .ok tbl)
    (kpi : MonthlyKPI) (hk : kpi ∈ tbl) :
    kpi.occupied_nights ≤ kpi.available_nights
    ∧ 0 ≤ kpi.occupancy_pct ∧ kpi.occupancy_pct ≤ 100 := by
  rw [tbl_eq_of_ok hne htbl] at hk
  unfold monthlyTable at hk
  rw [List.mem_map] at hk
  obtain ⟨m, hm, rfl⟩ := hk
  have hocc : (mkMonthly m (monthGroup df_b c m)).occupied_nights
      ≤ (mkMonthly m (monthGroup df_b c m)).available_nights := by
    rw [mkMonthly_occupied, mkMonthly_available]
    exact List.length_filter_le _ _
  have hb := pct_bounds hocc (available_nights_pos hm)
  exact ⟨hocc, hb.1, hb.2⟩

/-- Witness for C8 at the single-booking scenario input. -/
theorem occupancy_bounds_witness :
    kpiMarch.occupied_nights ≤ kpiMarch.available_nights
    ∧ 0 ≤ kpiMarch.occupancy_pct ∧ kpiMarch.occupancy_pct ≤ 100 :=
  occupancy_bounds [bMarch] aprilCutoff (by decide)
    (monthlyTable [bMarch] aprilCutoff)
    (compute_eq_ok (by decide) (by decide)) kpiMarch kpiMarch_mem

/-- C5: in the aggregation output, `available_nights` counts the calendar
dates of the row's month inside the window, `occupied_nights` counts the
occupied daily records of that month, the derived columns satisfy
`revenue_net = revenue_gross - commission`,
`occupancy_pct = 100 * occupied / available`,
`revpar_gross = revenue_gross / available`,
`revpar_net = revenue_net / available`, and the rows are sorted by
strictly ascending month. -/
theorem monthly_rollup (df_b : List Booking) (c : Int) (hne : df_b ≠ [])
    (tbl : List MonthlyKPI)
    (htbl : compute_monthly_occupancy_revpar df_b c = .ok tbl) :
    (∀ kpi ∈ tbl,
      kpi.available_nights
        = ((calendar df_b c).filter fun d => monthOf d == kpi.month).length
      ∧ kpi.occupied_nights
        = ((daily_full df_b c).filter fun rec =>
            rec.occupied_flag && (monthOf rec.date == kpi.month)).length
      ∧ kpi.revenue_net = kpi.revenue_gross - kpi.commission
      ∧ kpi.occupancy_pct
        = 100 * (kpi.occupied_nights : ℚ) / (kpi.available_nights : ℚ)
      ∧ kpi.revpar_gross = kpi.revenue_gross / (kpi.available_nights : ℚ)
      ∧ kpi.revpar_net = kpi.revenue_net / (kpi.available_nights : ℚ))
    ∧ (tbl.map (·.month)).Pairwise (· < ·) := by
  rw [tbl_eq_of_ok hne htbl]
  constructor
  · intro kpi hk
    unfold monthlyTable at hk
    rw [List.mem_map] at hk
    obtain ⟨m, hm, rfl⟩ := hk
    rw [mkMonthly_month]
    refine ⟨?_, ?_, rfl, rfl, rfl, rfl⟩
    · rw [mkMonthly_available]
      unfold monthGroup daily_full
      rw [List.filter_map, List.length_map]
      exact congrArg List.length (List.filter_congr fun d _ => rfl)
    · rw [mkMonthly_occupied]
      unfold monthGroup
      rw [List.filter_filter]
  · unfold monthlyTable
    rw [List.map_map,
      show ((fun kpi : MonthlyKPI => kpi.month)
          ∘ fun m => mkMonthly m (monthGroup df_b c m)) = id from
        funext fun m => rfl,
      List.map_id]
    exact monthKeys_pairwise_lt df_b c

/-- Witness for C5 at the single-booking scenario input. -/
theorem monthly_rollup_witness :
    (∀ kpi ∈ monthlyTable [bMarch] aprilCutoff,
      kpi.available_nights
        = ((calendar [bMarch] aprilCutoff).filter
            fun d => monthOf d == kpi.month).length
      ∧ kpi.occupied_nights
        = ((daily_full [bMarch] aprilCutoff).filter fun rec =>
            rec.occupied_flag && (monthOf rec.date == kpi.month)).length
      ∧ kpi.revenue_net = kpi.revenue_gross - kpi.commission
      ∧ kpi.occupancy_pct
        = 100 * (kpi.occupied_nights : ℚ) / (kpi.available_nights : ℚ)
      ∧ kpi.revpar_gross = kpi.revenue_gross / (kpi.available_nights : ℚ)
      ∧ kpi.revpar_net = kpi.revenue_net / (kpi.available_nights : ℚ))
    ∧ ((monthlyTable [bMarch] aprilCutoff).map (·.month)).Pairwise (· < ·) :=
  monthly_rollup [bMarch] aprilCutoff (by decide)
    (monthlyTable [bMarch] aprilCutoff) (compute_eq_ok (by decide) (by decide))

/-- C4: the expansion of one booking emits exactly one tuple
`(d, price / nights, commission / nights)` per date `d` of the half-open
stay range with `d` at most the window end, silently dropping later dates;
in the concrete clamping scenario (booking 2024-01-30 to 2024-02-05,
cutoff 2024-02-01) only the nights 2024-01-30 and 2024-01-31 are
allocated and no February record exists in the daily or monthly table. -/
theorem night_expansion_clamped :
    (∀ (e : Int) (r : Booking),
      bookingRows e r
        = ((dateRange r.prichod (r.odchod - 1)).filter fun d => d ≤ e).map
            fun d => (d, daily_rev r, daily_comm r))
    ∧ (∀ (e : Int) (r : Booking) (d : Int),
        (d ∈ (bookingRows e r).map fun t => t.1) ↔ occupies r d ∧ d ≤ e)
    ∧ (daily_full [bJanFeb] febCutoff).map (·.date)
        = [(daysFromCivil 2024 1 30 : Int), (daysFromCivil 2024 1 31 : Int)]
    ∧ (monthlyTable [bJanFeb] febCutoff).map (·.month) = [monthIdx 2024 1] := by
  refine ⟨fun e r => bookingRows_eq e r, fun e r d => ?_, by decide, by decide⟩
  rw [bookingRows_eq, List.map_map]
  constructor
  · intro h
    rw [List.mem_map] at h
    obtain ⟨d2, hd2, h2⟩ := h
    have hd2d : d2 = d := h2
    subst hd2d
    rw [List.mem_filter] at hd2
    exact ⟨mem_bookingNights.mp hd2.1, by simpa using hd2.2⟩
  · rintro ⟨hocc, hle⟩
    rw [List.mem_map]
    exact ⟨d, List.mem_filter.mpr ⟨mem_bookingNights.mpr hocc,
      by simpa using hle⟩, rfl⟩

/-- C2: with a non-empty booking set and a well-ordered window, the daily
table lists exactly the dates of the inclusive window range, in order and
without duplicates; a date of the window occupied by no booking still has
a record, carrying zero revenue, zero commission and a false flag. -/
theorem daily_coverage (df_b : List Booking) (c : Int) (hne : df_b ≠ [])
    (hwin : start_date df_b ≤ end_date df_b c) :
    (daily_full df_b c).map (·.date)
        = dateRange (start_date df_b) (end_date df_b c)
    ∧ ((daily_full df_b c).map (·.date)).Nodup
    ∧ (∀ d : Int, (∃ rec ∈ daily_full df_b c, rec.date = d)
        ↔ (start_date df_b ≤ d ∧ d ≤ end_date df_b c))
    ∧ ∀ rec ∈ daily_full df_b c,
        (∀ r ∈ df_b, ¬ occupies r rec.date) →
        rec.revenue_gross = 0 ∧ rec.commission = 0
          ∧ rec.occupied_flag = false := by
  have hdates : (daily_full df_b c).map (·.date)
      = dateRange (start_date df_b) (end_date df_b c) := by
    unfold daily_full
    rw [List.map_map,
      show ((fun rec : DailyRecord => rec.date)
          ∘ dailyRecordAt (allRows df_b c)) = id from funext fun d => rfl,
      List.map_id]
    rfl
  refine ⟨hdates, by rw [hdates]; exact nodup_dateRange _ _, fun d => ?_, ?_⟩
  · constructor
    · rintro ⟨rec, hrec, rfl⟩
      have hmem : rec.date ∈ (daily_full df_b c).map (·.date) :=
        List.mem_map_of_mem _ hrec
      rw [hdates, mem_dateRange] at hmem
      exact hmem
    · intro hd
      have hmem : d ∈ (daily_full df_b c).map (·.date) := by
        rw [hdates]
        exact mem_dateRange.mpr hd
      rw [List.mem_map] at hmem
      obtain ⟨rec, hrec, hrd⟩ := hmem
      exact ⟨rec, hrec, hrd⟩
  · intro rec hrec hno
    unfold daily_full at hrec
    rw [List.mem_map] at hrec
    obtain ⟨d, hd, rfl⟩ := hrec
    have hhits : (allRows df_b c).filter (fun t => t.1 == d) = [] := by
      rw [List.filter_eq_nil_iff]
      intro t ht hbeq
      have htd : t.1 = d := by simpa using hbeq
      obtain ⟨r, hr, hocc, -, -, -⟩ := mem_allRows ht
      exact hno r hr (by rw [dailyRecordAt_date]; exact htd ▸ hocc)
    refine ⟨?_, ?_, ?_⟩
    · show (((allRows df_b c).filter fun t => t.1 == d).map
          fun t => t.2.1).sum = 0
      rw [hhits]
      rfl
    · show (((allRows df_b c).filter fun t => t.1 == d).map
          fun t => t.2.2).sum = 0
      rw [hhits]
      rfl
    · show (!((allRows df_b c).filter fun t => t.1 == d).isEmpty) = false
      rw [hhits]
      rfl

/-- Witness for C2 at the single-booking scenario input. -/
theorem daily_coverage_witness :
    (daily_full [bMarch] aprilCutoff).map (·.date)
        = dateRange (start_date [bMarch]) (end_date [bMarch] aprilCutoff)
    ∧ ((daily_full [bMarch] aprilCutoff).map (·.date)).Nodup
    ∧ (∀ d : Int, (∃ rec ∈ daily_full [bMarch] aprilCutoff, rec.date = d)
        ↔ (start_date [bMarch] ≤ d ∧ d ≤ end_date [bMarch] aprilCutoff))
    ∧ ∀ rec ∈ daily_full [bMarch] aprilCutoff,
        (∀ r ∈ [bMarch], ¬ occupies r rec.date) →
        rec.revenue_gross = 0 ∧ rec.commission = 0
          ∧ rec.occupied_flag = false :=
  daily_coverage [bMarch] aprilCutoff (by decide) (by decide)

/-- C1: over any booking set whose night counts equal the day length of
the half-open stay range, the daily table's total gross revenue equals the
per-booking sum of per-night price times the number of clamped nights,
and the same identity holds for commission. -/
theorem revenue_conservation (df_b : List Booking) (c : Int)
    (hne : df_b ≠ [])
    (hval : ∀ r ∈ df_b, r.prichod < r.odchod
      ∧ (r.pocet_noci : Int) = r.odchod - r.prichod) :
    ((daily_full df_b c).map (·.revenue_gross)).sum
      = (df_b.map fun r =>
          daily_rev r * (clampedNights (end_date df_b c) r : ℚ)).sum
    ∧ ((daily_full df_b c).map (·.commission)).sum
      = (df_b.map fun r =>
          daily_comm r * (clampedNights (end_date df_b c) r : ℚ)).sum := by
  constructor
  · rw [daily_full_sum df_b c _ (fun t => t.2.1) fun rows d => rfl,
      allRows_sum]
    exact congrArg List.sum
      (List.map_congr_left fun r _ => bookingRows_sum_fst _ r)
  · rw [daily_full_sum df_b c _ (fun t => t.2.2) fun rows d => rfl,
      allRows_sum]
    exact congrArg List.sum
      (List.map_congr_left fun r _ => bookingRows_sum_snd _ r)

/-- Witness for C1 at the single-booking scenario input. -/
theorem revenue_conservation_witness :
    ((daily_full [bMarch] aprilCutoff).map (·.revenue_gross)).sum
      = ([bMarch].map fun r =>
          daily_rev r * (clampedNights (end_date [bMarch] aprilCutoff) r : ℚ)).sum
    ∧ ((daily_full [bMarch] aprilCutoff).map (·.commission)).sum
      = ([bMarch].map fun r =>
          daily_comm r * (clampedNights (end_date [bMarch] aprilCutoff) r : ℚ)).sum :=
  revenue_conservation [bMarch] aprilCutoff (by decide) (by decide)

end Reservacie
